import Mathlib

/-!
Verification of the garmin-service core (credential vault, rate limiter,
sync client, data normalizer) against its natural-language specification.

The Python sources under `app/services/` are shallowly embedded below:
Python dicts become association lists over `String` keys, Python values
become the inductive `PyVal`, raising code returns `Except PyErr`, and
stateful components (the Redis-backed rate limiter, the sync client) are
modelled by explicit state passing.  Third-party library primitives that
are not part of the repository (PBKDF2, Fernet, base64, `datetime`
parsing) are modelled as idealized components, each marked in its doc
comment.
-/

/-- Model of a Python `datetime.datetime` value: calendar fields plus a flag
recording whether `tzinfo` is UTC (`true`) or the value is naive (`false`). -/
structure PyDateTime where
  year : Int
  month : Int
  day : Int
  hour : Int
  minute : Int
  second : Int
  utc : Bool
deriving DecidableEq, Repr

/-- Model of a Python `datetime.date` value. -/
structure PyDate where
  year : Int
  month : Int
  day : Int
deriving DecidableEq, Repr

/-- Model of a Python runtime value as it appears in the normalizer code.
Python `float`s are modelled as exact rationals (the decimal literals that
occur in payloads are exact, and `int()` truncation on them is captured by
rational truncation); `decimal.Decimal` values are likewise rationals. -/
inductive PyVal : Type where
  | none : PyVal
  | bool : Bool → PyVal
  | int : Int → PyVal
  | float : ℚ → PyVal
  | str : String → PyVal
  | list : List PyVal → PyVal
  | dict : List (String × PyVal) → PyVal
  | datetime : PyDateTime → PyVal
  | decimal : ℚ → PyVal
deriving Repr

/-- A Python dict with string keys, as used throughout the normalizer. -/
abbrev PyDict := List (String × PyVal)

/-- Python exceptions raised by the embedded code. -/
inductive PyErr : Type where
  | attributeError : PyErr
  | typeError : PyErr
  | valueError : PyErr
  | invalidOperation : PyErr
deriving DecidableEq, Repr

/-- First-match key lookup, the semantics of `d[k]` / `k in d` on a Python
dict (keys in a Python dict are unique, so first match is the match). -/
def lookupKey (d : PyDict) (k : String) : Option PyVal :=
  match d with
  | [] => Option.none
  | (k', v) :: rest => if k' = k then some v else lookupKey rest k

/-- Python `d.get(k, default)`. -/
def pyGet (d : PyDict) (k : String) (default : PyVal) : PyVal :=
  (lookupKey d k).getD default

/-- Python `d[k] = v`: overwrite in place if the key exists, else append. -/
def dictSet (d : PyDict) (k : String) (v : PyVal) : PyDict :=
  match d with
  | [] => [(k, v)]
  | (k', w) :: rest => if k' = k then (k, v) :: rest else (k', w) :: dictSet rest k v

/-- Python truthiness of a value (`if x:`). -/
def PyVal.truthy : PyVal → Bool
  | .none => false
  | .bool b => b
  | .int n => n != 0
  | .float q => q != 0
  | .str s => s != ""
  | .list xs => !xs.isEmpty
  | .dict kvs => !kvs.isEmpty
  | .datetime _ => true
  | .decimal q => q != 0

/-- Python `isinstance(x, (int, float))`; `bool` is a subclass of `int`. -/
def PyVal.isNumeric : PyVal → Bool
  | .bool _ => true
  | .int _ => true
  | .float _ => true
  | _ => false

/-- Rational truncation toward zero, the behaviour of Python `int()` on a
finite float. -/
def ratTrunc (q : ℚ) : Int :=
  Int.tdiv q.num (q.den : Int)

/-- Python `int(x)` on a numeric value (the embedded code only applies it
under an `isinstance(x, (int, float))` guard; the remaining branches are
unreachable there and return 0). -/
def PyVal.toIntVal : PyVal → Int
  | .bool b => if b then 1 else 0
  | .int n => n
  | .float q => ratTrunc q
  | _ => 0

/-- Python `str(x)`.  Exact for the cases the normalizer meets (ints and
strings under `activityId`); the renderings of the remaining constructors
are simplified stand-ins for the CPython reprs, which are nonempty strings
as well. -/
def pyStr : PyVal → String
  | .none => "None"
  | .bool b => if b then "True" else "False"
  | .int n => toString n
  | .float q => toString q
  | .str s => s
  | .list _ => "[...]"
  | .dict _ => "dict(...)"
  | .datetime _ => "datetime(...)"
  | .decimal q => toString q

/-- Two-digit field of an ISO timestamp. -/
def twoDigits (a b : Char) : Int :=
  ((a.toNat - 48) * 10 + (b.toNat - 48) : Nat)

/-- Four-digit field of an ISO timestamp. -/
def fourDigits (a b c d : Char) : Int :=
  ((((a.toNat - 48) * 10 + (b.toNat - 48)) * 10 + (c.toNat - 48)) * 10 + (d.toNat - 48) : Nat)

/-- Modelled from the spec: `datetime.fromisoformat` from the standard
library (not in src).  Simplified to the shapes the service meets:
`YYYY-MM-DD`, `YYYY-MM-DDTHH:MM:SS` and `YYYY-MM-DDTHH:MM:SS+00:00`
(the latter produced by the code's `replace('Z', '+00:00')`); every other
string is a parse failure (`ValueError`, returned as `Option.none`). -/
def fromisoformat (s : String) : Option PyDateTime :=
  match s.toList with
  | [y1, y2, y3, y4, '-', m1, m2, '-', d1, d2] =>
      if ([y1, y2, y3, y4, m1, m2, d1, d2].all Char.isDigit) then
        some ⟨fourDigits y1 y2 y3 y4, twoDigits m1 m2, twoDigits d1 d2, 0, 0, 0, false⟩
      else Option.none
  | [y1, y2, y3, y4, '-', m1, m2, '-', d1, d2, 'T', h1, h2, ':', mi1, mi2, ':', s1, s2] =>
      if ([y1, y2, y3, y4, m1, m2, d1, d2, h1, h2, mi1, mi2, s1, s2].all Char.isDigit) then
        some ⟨fourDigits y1 y2 y3 y4, twoDigits m1 m2, twoDigits d1 d2,
              twoDigits h1 h2, twoDigits mi1 mi2, twoDigits s1 s2, false⟩
      else Option.none
  | [y1, y2, y3, y4, '-', m1, m2, '-', d1, d2, 'T', h1, h2, ':', mi1, mi2, ':', s1, s2,
     '+', '0', '0', ':', '0', '0'] =>
      if ([y1, y2, y3, y4, m1, m2, d1, d2, h1, h2, mi1, mi2, s1, s2].all Char.isDigit) then
        some ⟨fourDigits y1 y2 y3 y4, twoDigits m1 m2, twoDigits d1 d2,
              twoDigits h1 h2, twoDigits mi1 mi2, twoDigits s1 s2, true⟩
      else Option.none
  | _ => Option.none

/-- `datetime.combine(target_date, datetime.min.time()).replace(tzinfo=timezone.utc)`:
midnight UTC of the given calendar date, as computed by every metric
normalizer for `recorded_date`. -/
def midnightUtc (d : PyDate) : PyDateTime :=
  ⟨d.year, d.month, d.day, 0, 0, 0, true⟩

/-- Modelled from the spec: Python `str.lower()` (ASCII range; the keys
the service lowercases — activity type keys and sleep stage labels — are
ASCII). -/
def charLower (c : Char) : Char :=
  if 65 ≤ c.toNat ∧ c.toNat ≤ 90 then Char.ofNat (c.toNat + 32) else c

/-- Python `s.lower()` on a string value. -/
def strLower (s : String) : String :=
  ⟨s.toList.map charLower⟩

/-- The `start_time` computation of `GarminDataNormalizer.normalize_activity`:
`raw.get('startTimeLocal', '')`, truthiness test, `.replace('Z', '+00:00')`
(an `AttributeError` on a truthy non-string), then `fromisoformat` with
`ValueError` caught and logged (yielding `None`). -/
def parseStartTime (d : PyDict) : Except PyErr PyVal :=
  let start_time_str := pyGet d ("startTimeLocal") (.str "")
  if start_time_str.truthy then
    match start_time_str with
    | .str s =>
        match fromisoformat (s.replace ("Z") ("+00:00")) with
        | some dt => .ok (PyVal.datetime dt)
        | Option.none => .ok PyVal.none
    | _ => .error PyErr.attributeError
  else .ok PyVal.none

/-- The `activity_type` computation of `normalize_activity`:
`'activityType' in raw and raw['activityType']` guard, then
`raw['activityType'].get('typeKey', '').lower()` (an `AttributeError`
when the value is a truthy non-dict, or when `typeKey` holds a
non-string). -/
def parseActivityType (d : PyDict) : Except PyErr PyVal :=
  match lookupKey d ("activityType") with
  | some v =>
      if v.truthy then
        match v with
        | .dict akvs =>
            match pyGet akvs ("typeKey") (.str "") with
            | .str s => .ok (PyVal.str (strLower s))
            | _ => .error PyErr.attributeError
        | _ => .error PyErr.attributeError
      else .ok PyVal.none
  | Option.none => .ok PyVal.none

/-- The `duration` computation of `normalize_activity`: converted with
`int()` only when truthy and numeric, otherwise the raw value (whatever it
is) is kept unchanged in the output. -/
def convertDuration (d : PyDict) : PyVal :=
  let duration := pyGet d ("duration") PyVal.none
  if duration.truthy && duration.isNumeric then PyVal.int duration.toIntVal else duration

/-- The `calories` computation of `normalize_activity`, same shape as
`convertDuration`. -/
def convertCalories (d : PyDict) : PyVal :=
  let calories := pyGet d ("calories") PyVal.none
  if calories.truthy && calories.isNumeric then PyVal.int calories.toIntVal else calories

/-- The `distance` computation of `normalize_activity`:
`Decimal(str(distance))` when truthy and numeric (which raises
`decimal.InvalidOperation` for a `bool`, since `str(True)` is not a
numeral), otherwise the raw value is kept unchanged. -/
def convertDistance (d : PyDict) : Except PyErr PyVal :=
  let distance := pyGet d ("distance") PyVal.none
  if distance.truthy && distance.isNumeric then
    match distance with
    | .bool _ => .error PyErr.invalidOperation
    | .int n => .ok (PyVal.decimal (n : ℚ))
    | .float q => .ok (PyVal.decimal q)
    | _ => .ok distance
  else .ok distance

/-- The heart-rate field computation of `normalize_activity`:
`int(v) if v and isinstance(v, (int, float)) else None`. -/
def hrField (d : PyDict) (k : String) : PyVal :=
  let v := pyGet d k PyVal.none
  if v.truthy && v.isNumeric then PyVal.int v.toIntVal else PyVal.none

/-- `GarminDataNormalizer.normalize_activity`.  A non-mapping input raises
(`.get` on it is an `AttributeError`); the outer `try` of the source
re-raises every exception, so errors propagate unchanged. -/
def normalize_activity (raw : PyVal) : Except PyErr PyDict := do
  let d ← match raw with
    | .dict kvs => Except.ok kvs
    | _ => Except.error PyErr.attributeError
  let activity_id := pyStr (pyGet d ("activityId") (.str ""))
  let start_time ← parseStartTime d
  let activity_type ← parseActivityType d
  let distance ← convertDistance d
  Except.ok
    [(("activity_id"), PyVal.str activity_id),
     (("activity_name"), pyGet d ("activityName") (.str "")),
     (("activity_type"), activity_type),
     (("start_time"), start_time),
     (("duration_seconds"), convertDuration d),
     (("distance_meters"), distance),
     (("calories"), convertCalories d),
     (("avg_heart_rate"), hrField d ("averageHR")),
     (("max_heart_rate"), hrField d ("maxHR")),
     (("raw_data"), raw)]

/-- `GarminDataNormalizer.normalize_activities_batch`: items are normalized
independently; an item whose normalization raises is skipped (logged), and
an item whose resulting `activity_id` is falsy (the empty string) is not
appended. -/
def normalize_activities_batch (raws : List PyVal) : List PyDict :=
  match raws with
  | [] => []
  | r :: rest =>
      match normalize_activity r with
      | .ok n =>
          if (pyGet n ("activity_id") (.str "")).truthy then
            n :: normalize_activities_batch rest
          else normalize_activities_batch rest
      | .error _ => normalize_activities_batch rest

/-- The `if key in raw: out[newKey] = raw[key]` step shared by every metric
normalizer. -/
def copyKey (src : PyDict) (inKey outKey : String) (acc : PyDict) : PyDict :=
  match lookupKey src inKey with
  | some v => dictSet acc outKey v
  | Option.none => acc

/-- Coerce the raw payload argument of a metric normalizer to a mapping.
The source runs `key in raw` / `raw[key]` on it, which raises `TypeError`
for `None` and other non-container values (the only non-mapping inputs the
service feeds these functions; sequence inputs, which CPython would treat
as membership tests over elements, are modelled as the same failure). -/
def asMapping (raw : PyVal) : Except PyErr PyDict :=
  match raw with
  | .dict kvs => Except.ok kvs
  | _ => Except.error PyErr.typeError

/-- `GarminDataNormalizer.normalize_heart_rate_data`. -/
def normalize_heart_rate_data (raw : PyVal) (target_date : PyDate) : Except PyErr PyDict := do
  let d ← asMapping raw
  let nd := copyKey d ("restingHeartRate") ("resting_heart_rate") []
  let nd := copyKey d ("heartRateZones") ("hr_zones") nd
  let nd := copyKey d ("timeInZones") ("time_in_zones") nd
  let nd := copyKey d ("hrv") ("hrv") nd
  let nd := copyKey d ("maxHeartRate") ("max_heart_rate") nd
  let nd := copyKey d ("averageHeartRate") ("avg_heart_rate") nd
  let nd := copyKey d ("heartRateValues") ("hr_samples") nd
  Except.ok
    [(("metric_type"), PyVal.str ("heart_rate")),
     (("recorded_date"), PyVal.datetime (midnightUtc target_date)),
     (("metric_data"), PyVal.dict nd)]

/-- One iteration of the `sleepLevels` loop of `normalize_sleep_data`:
the level must be a mapping (`level.get` on anything else is an
`AttributeError`) whose `level` value must be a string (`.lower()` on
anything else is an `AttributeError`); a recognized stage name is
collected into a `stage_seconds`-style key with `level.get('seconds', 0)`. -/
def sleepStageStep (acc : PyDict) (lv : PyVal) : Except PyErr PyDict :=
  match lv with
  | .dict lkvs =>
      match pyGet lkvs ("level") (.str "") with
      | .str s =>
          let stage := strLower s
          if stage = ("deep") ∨ stage = ("light") ∨ stage = ("rem") ∨ stage = ("awake") then
            Except.ok (dictSet acc (stage ++ ("_seconds")) (pyGet lkvs ("seconds") (.int 0)))
          else Except.ok acc
      | _ => Except.error PyErr.attributeError
  | _ => Except.error PyErr.attributeError

/-- The `sleepLevels` loop of `normalize_sleep_data`. -/
def normalize_sleep_stages (levels : List PyVal) : Except PyErr PyDict :=
  levels.foldlM sleepStageStep []

/-- Python `if o is not None: nd[k] = o`, the conditional insertions of the
sleep normalizer (`sleep_stages` is inserted whenever `sleepLevels` was
present, `sleep_start` and `sleep_end` only when their timestamp parsed). -/
def optSet (d : PyDict) (k : String) (o : Option PyVal) : PyDict :=
  match o with
  | some v => dictSet d k v
  | Option.none => d

/-- One of the two sleep-timestamp steps of `normalize_sleep_data`:
`raw[key].replace('Z', '+00:00')` is an `AttributeError` on a non-string
value; `ValueError` from parsing is caught (`pass`), omitting the output
key. -/
def parseSleepTimestamp (d : PyDict) (k : String) : Except PyErr (Option PyVal) :=
  match lookupKey d k with
  | some (.str s) =>
      match fromisoformat (s.replace ("Z") ("+00:00")) with
      | some dt => Except.ok (some (PyVal.datetime dt))
      | Option.none => Except.ok Option.none
  | some _ => Except.error PyErr.attributeError
  | Option.none => Except.ok Option.none

/-- The `sleepLevels` block of `normalize_sleep_data`: absent key emits
nothing; a present key must hold an iterable (a non-list value is a
`TypeError`) and yields the `sleep_stages` sub-dict, even if empty. -/
def parseStagesValue (d : PyDict) : Except PyErr (Option PyVal) :=
  match lookupKey d ("sleepLevels") with
  | some (.list xs) => (normalize_sleep_stages xs).map (fun st => some (PyVal.dict st))
  | some _ => Except.error PyErr.typeError
  | Option.none => Except.ok Option.none

/-- `GarminDataNormalizer.normalize_sleep_data`. -/
def normalize_sleep_data (raw : PyVal) (target_date : PyDate) : Except PyErr PyDict := do
  let d ← asMapping raw
  let nd := copyKey d ("sleepTimeSeconds") ("sleep_duration_seconds") []
  let nd := copyKey d ("sleepEfficiency") ("sleep_efficiency") nd
  let stagesPart ← parseStagesValue d
  let nd := optSet nd ("sleep_stages") stagesPart
  let startPart ← parseSleepTimestamp d ("sleepStartTimestampLocal")
  let nd := optSet nd ("sleep_start") startPart
  let endPart ← parseSleepTimestamp d ("sleepEndTimestampLocal")
  let nd := optSet nd ("sleep_end") endPart
  let nd := copyKey d ("sleepScore") ("sleep_score") nd
  let nd := copyKey d ("restlessness") ("restlessness") nd
  Except.ok
    [(("metric_type"), PyVal.str ("sleep")),
     (("recorded_date"), PyVal.datetime (midnightUtc target_date)),
     (("metric_data"), PyVal.dict nd)]

/-- `GarminDataNormalizer.normalize_body_composition`. -/
def normalize_body_composition (raw : PyVal) (target_date : PyDate) : Except PyErr PyDict := do
  let d ← asMapping raw
  let nd := copyKey d ("weight") ("weight_kg") []
  let nd := copyKey d ("bodyFat") ("body_fat_percentage") nd
  let nd := copyKey d ("muscleMass") ("muscle_mass_kg") nd
  let nd := copyKey d ("bmi") ("bmi") nd
  let nd := copyKey d ("bodyWater") ("body_water_percentage") nd
  let nd := copyKey d ("boneMass") ("bone_mass_kg") nd
  Except.ok
    [(("metric_type"), PyVal.str ("body_composition")),
     (("recorded_date"), PyVal.datetime (midnightUtc target_date)),
     (("metric_data"), PyVal.dict nd)]

/-- `GarminDataNormalizer.normalize_stress_data`. -/
def normalize_stress_data (raw : PyVal) (target_date : PyDate) : Except PyErr PyDict := do
  let d ← asMapping raw
  let nd := copyKey d ("averageStressLevel") ("avg_stress_level") []
  let nd := copyKey d ("maxStressLevel") ("max_stress_level") nd
  let nd := copyKey d ("stressDuration") ("stress_duration_seconds") nd
  let nd := copyKey d ("restStressDuration") ("rest_duration_seconds") nd
  let nd := copyKey d ("activityStressDuration") ("activity_stress_duration_seconds") nd
  let nd := copyKey d ("lowStressDuration") ("low_stress_duration_seconds") nd
  let nd := copyKey d ("mediumStressDuration") ("medium_stress_duration_seconds") nd
  let nd := copyKey d ("highStressDuration") ("high_stress_duration_seconds") nd
  let nd := copyKey d ("stressLevelValues") ("stress_samples") nd
  Except.ok
    [(("metric_type"), PyVal.str ("stress")),
     (("recorded_date"), PyVal.datetime (midnightUtc target_date)),
     (("metric_data"), PyVal.dict nd)]

/-!
Rate limiter (`RateLimiter.is_allowed` in `garmin_client.py`).

The Redis sorted set held under a key stores, per entry, the member
`str(current_time)` with score `current_time`; since the member string
determines the score, the set is faithfully a finite set of `ℕ`
timestamps, and a `zadd` of an already-present second is an overwrite
that leaves the set unchanged.  The pipelined command sequence
`zremrangebyscore key 0 window_start; zcard key; zadd key {str(now): now}`
is modelled as one atomic state transition.  `zremrangebyscore key 0 ws`
removes the scores in `[0, ws]`; all stored scores are nonnegative, so
keeping exactly the timestamps `t` with `ws < t` is the same removal
(including the case `ws < 0`, where nothing is removed).
-/

/-- `RateLimiter.is_allowed`: one atomic check against the sorted set
`st` at time `now`.  Returns the boolean `current_count < limit` (the
count read after the removal and before the insertion) and the new set. -/
def is_allowed (st : Finset ℕ) (now : ℕ) (limit : ℤ) (window : ℤ) : Bool × Finset ℕ :=
  let windowStart : ℤ := (now : ℤ) - window
  let afterRemove := st.filter (fun t : ℕ => windowStart < (t : ℤ))
  let current_count := afterRemove.card
  (decide ((current_count : ℤ) < limit), insert now afterRemove)

/-- A sequence of `is_allowed` calls on one key, returning the verdicts of
the calls in order together with the final set. -/
def runCalls (st : Finset ℕ) (limit window : ℤ) : List ℕ → List Bool × Finset ℕ
  | [] => ([], st)
  | t :: ts =>
      let r := is_allowed st t limit window
      let rest := runCalls r.2 limit window ts
      (r.1 :: rest.1, rest.2)

/-!
Credential vault (`credential_service.py`).

The cryptographic primitives come from the `cryptography` library and are
not repository code; they are modelled as idealized components:
`PBKDF2HMAC(..., salt, 100000).derive(master)` as a key-derivation that is
injective in the (master key, salt) pair, and `Fernet` as an ideal
authenticated symmetric cipher — a token decrypts under a key exactly
when it was produced by encrypting under that same key, and every other
token (wrong key, or a corrupted token whose authentication tag does not
match its body) fails verification.  `secrets.token_bytes(16)` is
modelled by passing the fresh random salt as an explicit argument, and
base64/UTF-8 transport encodings by injective wrappers (`.encode()` /
`b64encode` are injective with total decoding inverses, so they are
carried as the underlying data itself).
-/

/-- Byte strings. -/
abbrev Bytes := List Nat

/-- Modelled from the spec: the key produced by
`PBKDF2HMAC(SHA256, 32, salt, 100000).derive(master_key)` — idealized as
the (master, salt) pair itself, making the derivation injective. -/
structure DerivedKey where
  master : Bytes
  salt : Bytes
deriving DecidableEq, Repr

/-- `CredentialService._derive_key`. -/
def derive_key (master : Bytes) (salt : Bytes) : DerivedKey :=
  ⟨master, salt⟩

/-- Modelled from the spec: a Fernet token — ciphertext plus
authentication tag over (key, payload). -/
structure FernetToken where
  key : DerivedKey
  payload : Bytes
  tag : DerivedKey × Bytes
deriving DecidableEq, Repr

/-- Modelled from the spec: `Fernet(key).encrypt(pt)` as an ideal
authenticated cipher. -/
def fernet_encrypt (k : DerivedKey) (pt : Bytes) : FernetToken :=
  ⟨k, pt, (k, pt)⟩

/-- Errors of the credential service. -/
inductive CredErr : Type where
  | decryptionError : CredErr
deriving DecidableEq, Repr

/-- Modelled from the spec: `Fernet(key).decrypt(token)` — verification
succeeds exactly when the token's key matches and its authentication tag
matches its body; otherwise `InvalidToken`, surfaced by the service as a
`DecryptionError`. -/
def fernet_decrypt (k : DerivedKey) (t : FernetToken) : Except CredErr Bytes :=
  if t.key = k ∧ t.tag = (t.key, t.payload) then Except.ok t.payload
  else Except.error CredErr.decryptionError

/-- Modelled from the spec: `str.encode()` (UTF-8), idealized as the
injective code-point encoding. -/
def strEncode (s : String) : Bytes :=
  s.toList.map Char.toNat

/-- Modelled from the spec: `bytes.decode()`, the total inverse of
`strEncode` on its image. -/
def strDecode (bs : Bytes) : String :=
  ⟨bs.map Char.ofNat⟩

/-- The pair returned by `CredentialService.encrypt_credential`
(base64-encoded ciphertext string and base64-encoded salt string, carried
as the underlying data). -/
structure EncryptedCredential where
  encrypted_data : FernetToken
  salt : Bytes
deriving DecidableEq, Repr

/-- `CredentialService.encrypt_credential`: generate a random 16-byte
salt (passed here as `saltFresh`), derive the key from the master key and
the salt, encrypt the credential, and return ciphertext and salt. -/
def encrypt_credential (master : Bytes) (saltFresh : Bytes) (credential : String) :
    EncryptedCredential :=
  let key := derive_key master saltFresh
  let token := fernet_encrypt key (strEncode credential)
  ⟨token, saltFresh⟩

/-- `CredentialService.decrypt_credential`: re-derive the key from the
given salt and the master key, then authenticate-and-decrypt. -/
def decrypt_credential (master : Bytes) (encrypted_data : FernetToken) (salt : Bytes) :
    Except CredErr String := do
  let key := derive_key master salt
  let pt ← fernet_decrypt key encrypted_data
  Except.ok (strDecode pt)

/-!
Sync client (`GarminClient` in `garmin_client.py`).

Each data-fetch coroutine is modelled as a pure function of the client's
authentication flag, the rate limiter's verdict for this call, and the
upstream response (the opaque `garminconnect` call, which either returns
a payload or raises).  Alongside its result, each function returns the
ordered list of observable effects it performed, so that "fails before
any rate-limit check or upstream call" is a statement about the trace.
The `tenacity` retry wrapper re-invokes the coroutine only when it
raises a `ConnectionError`/`TimeoutError`; the four per-day metric
fetchers swallow every upstream exception inside their own `try` and
return `None`, so no exception ever reaches the retry wrapper and a
single upstream outcome determines the result.
-/

/-- Observable effects of one data-fetch call. -/
inductive Effect : Type where
  | rateCheck : Effect
  | upstreamCall : Effect
deriving DecidableEq, Repr

/-- Upstream failure classes (the exception the `garminconnect` call
raises). -/
inductive UpErr : Type where
  | connectionError : UpErr
  | timeoutError : UpErr
  | other : UpErr
deriving DecidableEq, Repr

/-- Errors raised by the sync client to its caller. -/
inductive ClientErr : Type where
  | notAuthenticated : ClientErr
  | rateLimitExceeded : ClientErr
  | upstreamFailed (e : UpErr) : ClientErr
  | payloadError (e : PyErr) : ClientErr
deriving DecidableEq, Repr

/-- The shared body of the four per-day metric fetchers
(`get_heart_rate_data`, `get_sleep_data`, `get_body_composition`,
`get_stress_data`): raise `ValueError('Not authenticated...')` first,
then `Exception('Rate limit exceeded')`, then perform the upstream call
with every exception swallowed to `None`. -/
def metricFetch (authenticated : Bool) (rateAllowed : Bool)
    (upstream : Except UpErr PyVal) : Except ClientErr (Option PyVal) × List Effect :=
  if !authenticated then (Except.error ClientErr.notAuthenticated, [])
  else if !rateAllowed then (Except.error ClientErr.rateLimitExceeded, [Effect.rateCheck])
  else
    match upstream with
    | Except.ok payload => (Except.ok (some payload), [Effect.rateCheck, Effect.upstreamCall])
    | Except.error _ => (Except.ok Option.none, [Effect.rateCheck, Effect.upstreamCall])

/-- `GarminClient.get_heart_rate_data`. -/
def get_heart_rate_data (authenticated rateAllowed : Bool) (upstream : Except UpErr PyVal) :
    Except ClientErr (Option PyVal) × List Effect :=
  metricFetch authenticated rateAllowed upstream

/-- `GarminClient.get_sleep_data`. -/
def get_sleep_data (authenticated rateAllowed : Bool) (upstream : Except UpErr PyVal) :
    Except ClientErr (Option PyVal) × List Effect :=
  metricFetch authenticated rateAllowed upstream

/-- `GarminClient.get_body_composition`. -/
def get_body_composition (authenticated rateAllowed : Bool) (upstream : Except UpErr PyVal) :
    Except ClientErr (Option PyVal) × List Effect :=
  metricFetch authenticated rateAllowed upstream

/-- `GarminClient.get_stress_data`. -/
def get_stress_data (authenticated rateAllowed : Bool) (upstream : Except UpErr PyVal) :
    Except ClientErr (Option PyVal) × List Effect :=
  metricFetch authenticated rateAllowed upstream

/-- Timestamp comparison used by the activity filter
(`activity_date >= start_date`), simplified to the lexicographic order on
the calendar fields. -/
def dtGe (a b : PyDateTime) : Bool :=
  decide (((((b.year * 13 + b.month) * 32 + b.day) * 24 + b.hour) * 60 + b.minute) * 60 + b.second
    ≤ ((((a.year * 13 + a.month) * 32 + a.day) * 24 + a.hour) * 60 + a.minute) * 60 + a.second)

/-- The client-side date filter of `get_activities`: items whose
`startTimeLocal` is missing (`KeyError`) or unparseable (`ValueError`)
are dropped with a warning; a non-mapping item or a non-string timestamp
raises out of the loop (only `KeyError`/`ValueError` are caught). -/
def filterActivities (acts : List PyVal) (start_date : PyDateTime) :
    Except PyErr (List PyVal) :=
  match acts with
  | [] => Except.ok []
  | a :: rest => do
      let keep ← match a with
        | .dict akvs =>
            match lookupKey akvs ("startTimeLocal") with
            | some (.str s) =>
                match fromisoformat (s.replace ("Z") ("+00:00")) with
                | some dt => Except.ok (dtGe dt start_date)
                | Option.none => Except.ok false
            | some _ => Except.error PyErr.attributeError
            | Option.none => Except.ok false
        | _ => Except.error PyErr.typeError
      let tail ← filterActivities rest start_date
      Except.ok (if keep then a :: tail else tail)

/-- `GarminClient.get_activities`: raise `ValueError('Not authenticated...')`
first, then `Exception('Rate limit exceeded')`, then fetch and filter;
upstream failures propagate (re-raised after logging). -/
def get_activities (authenticated rateAllowed : Bool)
    (upstream : Except UpErr (List PyVal)) (start_date : PyDateTime) :
    Except ClientErr (List PyVal) × List Effect :=
  if !authenticated then (Except.error ClientErr.notAuthenticated, [])
  else if !rateAllowed then (Except.error ClientErr.rateLimitExceeded, [Effect.rateCheck])
  else
    match upstream with
    | Except.ok acts =>
        (match filterActivities acts start_date with
         | Except.ok kept => Except.ok kept
         | Except.error e => Except.error (ClientErr.payloadError e),
         [Effect.rateCheck, Effect.upstreamCall])
    | Except.error e => (Except.error (ClientErr.upstreamFailed e),
         [Effect.rateCheck, Effect.upstreamCall])

/-- The value-typing discipline under which `normalize_activity` cannot
raise: a truthy `startTimeLocal` value is a string, a truthy
`activityType` value is a mapping whose `typeKey` value (when present) is
a string, and `distance` is not `True` (`Decimal(str(True))` raises). -/
def ActivityWellTyped (d : PyDict) : Prop :=
  (∀ v, lookupKey d ("startTimeLocal") = some v → v.truthy = true → ∃ s, v = PyVal.str s) ∧
  (∀ v, lookupKey d ("activityType") = some v → v.truthy = true →
    ∃ akvs, v = PyVal.dict akvs ∧
      ∀ w, lookupKey akvs ("typeKey") = some w → ∃ s, w = PyVal.str s) ∧
  lookupKey d ("distance") ≠ some (PyVal.bool true)

/-- The value-typing discipline under which `normalize_sleep_data` cannot
raise: `sleepLevels` (when present) is a list of mappings whose `level`
values (when present) are strings, and the two sleep timestamps (when
present) are strings. -/
def SleepWellTyped (d : PyDict) : Prop :=
  (∀ v, lookupKey d ("sleepLevels") = some v →
    ∃ xs, v = PyVal.list xs ∧
      ∀ lv ∈ xs, ∃ lkvs, lv = PyVal.dict lkvs ∧
        ∀ w, lookupKey lkvs ("level") = some w → ∃ s, w = PyVal.str s) ∧
  (∀ v, lookupKey d ("sleepStartTimestampLocal") = some v → ∃ s, v = PyVal.str s) ∧
  (∀ v, lookupKey d ("sleepEndTimestampLocal") = some v → ∃ s, v = PyVal.str s)

/-- The batch of the spec's testable property for
`normalize_activities_batch`: a valid item, a malformed item, an
empty-id item, and another valid item. -/
def batchExample : List PyVal :=
  [.dict [(("activityId"), .int 1), (("activityName"), .str ("Valid Run"))],
   .dict [(("invalid"), .str ("data"))],
   .dict [(("activityId"), .str ("")), (("activityName"), .str ("Empty ID"))],
   .dict [(("activityId"), .int 3), (("activityName"), .str ("Another Valid Run"))]]

/-- A batch containing an item whose normalization genuinely raises (a
numeric `startTimeLocal`), surrounded by two valid items. -/
def batchWithRaiser : List PyVal :=
  [.dict [(("activityId"), .int 1)],
   .dict [(("activityId"), .int 2), (("startTimeLocal"), .int 99)],
   .dict [(("activityId"), .int 3)]]

/-- The recognized input key / output key table of
`normalize_heart_rate_data`. -/
def hrKeyTable : List (String × String) :=
  [(("restingHeartRate"), ("resting_heart_rate")),
   (("heartRateZones"), ("hr_zones")),
   (("timeInZones"), ("time_in_zones")),
   (("hrv"), ("hrv")),
   (("maxHeartRate"), ("max_heart_rate")),
   (("averageHeartRate"), ("avg_heart_rate")),
   (("heartRateValues"), ("hr_samples"))]

/-- The recognized input key / output key table of
`normalize_body_composition`. -/
def bodyKeyTable : List (String × String) :=
  [(("weight"), ("weight_kg")),
   (("bodyFat"), ("body_fat_percentage")),
   (("muscleMass"), ("muscle_mass_kg")),
   (("bmi"), ("bmi")),
   (("bodyWater"), ("body_water_percentage")),
   (("boneMass"), ("bone_mass_kg"))]

/-- The recognized input key / output key table of
`normalize_stress_data`. -/
def stressKeyTable : List (String × String) :=
  [(("averageStressLevel"), ("avg_stress_level")),
   (("maxStressLevel"), ("max_stress_level")),
   (("stressDuration"), ("stress_duration_seconds")),
   (("restStressDuration"), ("rest_duration_seconds")),
   (("activityStressDuration"), ("activity_stress_duration_seconds")),
   (("lowStressDuration"), ("low_stress_duration_seconds")),
   (("mediumStressDuration"), ("medium_stress_duration_seconds")),
   (("highStressDuration"), ("high_stress_duration_seconds")),
   (("stressLevelValues"), ("stress_samples"))]

/-- The plain copied input key / output key pairs of
`normalize_sleep_data` (the three special keys `sleep_stages`,
`sleep_start`, `sleep_end` are handled separately). -/
def sleepPlainKeyTable : List (String × String) :=
  [(("sleepTimeSeconds"), ("sleep_duration_seconds")),
   (("sleepEfficiency"), ("sleep_efficiency")),
   (("sleepScore"), ("sleep_score")),
   (("restlessness"), ("restlessness"))]

/-- All output keys `normalize_sleep_data` can emit in `metric_data`. -/
def sleepOutKeys : List String :=
  [("sleep_duration_seconds"), ("sleep_efficiency"), ("sleep_stages"),
   ("sleep_start"), ("sleep_end"), ("sleep_score"), ("restlessness")]

/-- The activity of the spec's testable property:
`{'activityId': 12345, 'activityType': {'typeKey': 'RUNNING'}, 'duration': 3600.5}`. -/
def specExampleActivity : PyDict :=
  [(("activityId"), PyVal.int 12345),
   (("activityType"), PyVal.dict [(("typeKey"), PyVal.str ("RUNNING"))]),
   (("duration"), PyVal.float (mkRat 7201 2))]

/-- Whether an embedded computation returned normally (did not raise). -/
def exceptOk {ε α : Type} : Except ε α → Bool
  | .ok _ => true
  | .error _ => false

/-! ### General lemmas about the embedding -/

theorem except_ok_bind {ε α β : Type} (a : α) (f : α → Except ε β) :
    (Except.ok a >>= f) = f a := rfl

theorem except_error_bind {ε α β : Type} (e : ε) (f : α → Except ε β) :
    ((Except.error e : Except ε α) >>= f) = Except.error e := rfl

theorem lookupKey_dictSet (d : PyDict) (k k' : String) (v : PyVal) :
    lookupKey (dictSet d k v) k' = if k = k' then some v else lookupKey d k' := by
  induction d with
  | nil => simp [dictSet, lookupKey]
  | cons p rest ih =>
      obtain ⟨a, w⟩ := p
      by_cases hak : a = k
      · subst hak
        by_cases hkk : a = k'
        · subst hkk
          simp [dictSet, lookupKey]
        · simp [dictSet, lookupKey, hkk]
      · by_cases hak' : a = k'
        · subst hak'
          have hka : k ≠ a := fun h => hak h.symm
          simp [dictSet, lookupKey, hak, hka]
        · simp [dictSet, lookupKey, hak, hak', ih]

theorem lookupKey_copyKey (src : PyDict) (inK outK k : String) (acc : PyDict) :
    lookupKey (copyKey src inK outK acc) k =
      if outK = k then (lookupKey src inK).or (lookupKey acc k)
      else lookupKey acc k := by
  cases h : lookupKey src inK with
  | none => simp [copyKey, h]
  | some v => simp [copyKey, h, lookupKey_dictSet]

theorem lookupKey_optSet (d : PyDict) (k k' : String) (o : Option PyVal) :
    lookupKey (optSet d k o) k' =
      if k = k' then o.or (lookupKey d k') else lookupKey d k' := by
  cases o with
  | none => simp [optSet]
  | some v => simp [optSet, lookupKey_dictSet]

theorem strDecode_strEncode (s : String) : strDecode (strEncode s) = s := by
  simp [strDecode, strEncode, List.map_map, Function.comp_def, Char.ofNat_toNat]

/-! ### Claim C6 -/

/-- Claim C6: for every `GarminClient` in the Unauthenticated state, every
data-fetch operation (`get_activities`, `get_heart_rate_data`,
`get_sleep_data`, `get_body_composition`, `get_stress_data`) fails with
`NotAuthenticatedError` (the `ValueError('Not authenticated with Garmin
Connect')` of the source) with an empty effect trace — before any
rate-limit check or upstream call. -/
theorem C6_unauthenticated_fetch_fails :
    (∀ r u sd, get_activities false r u sd = (Except.error ClientErr.notAuthenticated, [])) ∧
    (∀ r u, get_heart_rate_data false r u = (Except.error ClientErr.notAuthenticated, [])) ∧
    (∀ r u, get_sleep_data false r u = (Except.error ClientErr.notAuthenticated, [])) ∧
    (∀ r u, get_body_composition false r u = (Except.error ClientErr.notAuthenticated, [])) ∧
    (∀ r u, get_stress_data false r u = (Except.error ClientErr.notAuthenticated, [])) :=
  ⟨fun _ _ _ => rfl, fun _ _ => rfl, fun _ _ => rfl, fun _ _ => rfl, fun _ _ => rfl⟩

/-! ### Claim C7 -/

/-- Claim C7: for an authenticated client whose rate-limit check passes,
each per-day metric fetcher returns absent (`None`) rather than raising
when the upstream fetch fails — with any failure class, retryable or not
(the catch-all `except` inside each fetcher swallows the exception before
the retry wrapper can see it) — so a missing day of one metric type never
aborts the overall sync. -/
theorem C7_metric_failure_returns_absent :
    ∀ e : UpErr,
      get_heart_rate_data true true (Except.error e) =
        (Except.ok Option.none, [Effect.rateCheck, Effect.upstreamCall]) ∧
      get_sleep_data true true (Except.error e) =
        (Except.ok Option.none, [Effect.rateCheck, Effect.upstreamCall]) ∧
      get_body_composition true true (Except.error e) =
        (Except.ok Option.none, [Effect.rateCheck, Effect.upstreamCall]) ∧
      get_stress_data true true (Except.error e) =
        (Except.ok Option.none, [Effect.rateCheck, Effect.upstreamCall]) :=
  fun _ => ⟨rfl, rfl, rfl, rfl⟩

/-! ### Claim C4 -/

/-- Claim C4: for every non-empty string `s`, `decrypt_credential` applied
to the ciphertext and salt produced by `encrypt_credential` on `s`
recovers `s`; and two calls of `encrypt_credential` on the same plaintext
with distinct fresh 16-byte salts yield different ciphertexts and
different salts. -/
theorem C4_encrypt_decrypt_roundtrip :
    (∀ (master salt : Bytes) (s : String), s ≠ "" →
      decrypt_credential master (encrypt_credential master salt s).encrypted_data
        (encrypt_credential master salt s).salt = Except.ok s) ∧
    (∀ (master s1 s2 : Bytes) (cred : String),
      s1.length = 16 → s2.length = 16 → s1 ≠ s2 →
      (encrypt_credential master s1 cred).encrypted_data ≠
        (encrypt_credential master s2 cred).encrypted_data ∧
      (encrypt_credential master s1 cred).salt ≠ (encrypt_credential master s2 cred).salt) := by
  constructor
  · intro master salt s _
    simp [decrypt_credential, encrypt_credential, fernet_encrypt, fernet_decrypt,
      derive_key, except_ok_bind, strDecode_strEncode]
  · intro master s1 s2 cred _ _ hne
    constructor
    · intro h
      exact hne (congrArg (fun t => t.key.salt) h)
    · exact hne

/-- Witness for C4 at a concrete master key, two concrete distinct
16-byte salts and the plaintext `pw`. -/
theorem C4_encrypt_decrypt_roundtrip_witness :
    decrypt_credential [1]
        (encrypt_credential [1] (List.replicate 16 0) ("pw")).encrypted_data
        (encrypt_credential [1] (List.replicate 16 0) ("pw")).salt = Except.ok ("pw") ∧
    (encrypt_credential [1] (List.replicate 16 0) ("pw")).encrypted_data ≠
      (encrypt_credential [1] (List.replicate 16 1) ("pw")).encrypted_data ∧
    (encrypt_credential [1] (List.replicate 16 0) ("pw")).salt ≠
      (encrypt_credential [1] (List.replicate 16 1) ("pw")).salt :=
  ⟨C4_encrypt_decrypt_roundtrip.1 [1] (List.replicate 16 0) ("pw") (by decide),
   (C4_encrypt_decrypt_roundtrip.2 [1] (List.replicate 16 0) (List.replicate 16 1) ("pw")
      (by decide) (by decide) (by decide)).1,
   (C4_encrypt_decrypt_roundtrip.2 [1] (List.replicate 16 0) (List.replicate 16 1) ("pw")
      (by decide) (by decide) (by decide)).2⟩

/-! ### Claim C5 -/

/-- Claim C5: for every ciphertext/salt pair where the ciphertext was
produced under a different key or salt (its embedded key differs from the
one re-derived from the master key and the given salt) or is corrupted
(its authentication tag does not match its body), `decrypt_credential`
fails with `DecryptionError`; it never returns a plaintext for such
input. -/
theorem C5_decrypt_mismatch_always_fails :
    ∀ (master salt : Bytes) (t : FernetToken),
      (t.key ≠ derive_key master salt ∨ t.tag ≠ (t.key, t.payload)) →
      decrypt_credential master t salt = Except.error CredErr.decryptionError := by
  intro master salt t h
  have hcond : ¬ (t.key = derive_key master salt ∧ t.tag = (t.key, t.payload)) := by
    rcases h with h | h
    · exact fun hc => h hc.1
    · exact fun hc => h hc.2
  simp [decrypt_credential, fernet_decrypt, hcond, except_error_bind]

/-- Witness for C5: a token whose embedded key was derived from a
different salt than the one presented at decryption. -/
theorem C5_decrypt_mismatch_always_fails_witness :
    decrypt_credential [1] (fernet_encrypt (derive_key [1] [2]) [5]) [3] =
      Except.error CredErr.decryptionError :=
  C5_decrypt_mismatch_always_fails [1] [3] (fernet_encrypt (derive_key [1] [2]) [5])
    (Or.inl (by simp [fernet_encrypt, derive_key]))

/-! ### Characterization of a successful `normalize_activity` -/

theorem normalize_activity_ok_elim (kvs nd : PyDict)
    (h : normalize_activity (.dict kvs) = Except.ok nd) :
    ∃ stv atv dstv,
      parseStartTime kvs = Except.ok stv ∧
      parseActivityType kvs = Except.ok atv ∧
      convertDistance kvs = Except.ok dstv ∧
      nd = [(("activity_id"), PyVal.str (pyStr (pyGet kvs ("activityId") (.str "")))),
            (("activity_name"), pyGet kvs ("activityName") (.str "")),
            (("activity_type"), atv),
            (("start_time"), stv),
            (("duration_seconds"), convertDuration kvs),
            (("distance_meters"), dstv),
            (("calories"), convertCalories kvs),
            (("avg_heart_rate"), hrField kvs ("averageHR")),
            (("max_heart_rate"), hrField kvs ("maxHR")),
            (("raw_data"), PyVal.dict kvs)] := by
  cases h1 : parseStartTime kvs with
  | error e =>
      rw [normalize_activity] at h
      simp [except_ok_bind, h1, except_error_bind] at h
  | ok stv =>
      cases h2 : parseActivityType kvs with
      | error e =>
          rw [normalize_activity] at h
          simp [except_ok_bind, h1, h2, except_error_bind] at h
      | ok atv =>
          cases h3 : convertDistance kvs with
          | error e =>
              rw [normalize_activity] at h
              simp [except_ok_bind, h1, h2, h3, except_error_bind] at h
          | ok dstv =>
              refine ⟨stv, atv, dstv, rfl, rfl, rfl, ?_⟩
              rw [normalize_activity] at h
              simp [except_ok_bind, h1, h2, h3] at h
              exact h.symm

/-! ### Claim C10 -/

/-- Claim C10: for every input dict whose `averageHR` (resp. `maxHR`) value
is the number 0 — a valid numeric value — any record returned by
`normalize_activity` carries `avg_heart_rate` (resp. `max_heart_rate`) as
absent (`None`), because the code guards the conversion with a truthiness
test (`if avg_hr and isinstance(...)`) rather than a presence test. -/
theorem C10_zero_heart_rate_to_none :
    ∀ (kvs nd : PyDict), normalize_activity (PyVal.dict kvs) = Except.ok nd →
      (lookupKey kvs ("averageHR") = some (PyVal.int 0) →
        lookupKey nd ("avg_heart_rate") = some PyVal.none) ∧
      (lookupKey kvs ("maxHR") = some (PyVal.int 0) →
        lookupKey nd ("max_heart_rate") = some PyVal.none) := by
  intro kvs nd h
  obtain ⟨stv, atv, dstv, _, _, _, hnd⟩ := normalize_activity_ok_elim kvs nd h
  subst hnd
  constructor
  · intro havg
    simp [lookupKey, hrField, pyGet, havg, PyVal.truthy]
  · intro hmax
    simp [lookupKey, hrField, pyGet, hmax, PyVal.truthy]

/-- Witness for C10 at the input dict with `averageHR` and `maxHR` both 0. -/
theorem C10_zero_heart_rate_to_none_witness :
    lookupKey
      [(("activity_id"), PyVal.str ("")),
       (("activity_name"), PyVal.str ("")),
       (("activity_type"), PyVal.none),
       (("start_time"), PyVal.none),
       (("duration_seconds"), PyVal.none),
       (("distance_meters"), PyVal.none),
       (("calories"), PyVal.none),
       (("avg_heart_rate"), PyVal.none),
       (("max_heart_rate"), PyVal.none),
       (("raw_data"), PyVal.dict [(("averageHR"), PyVal.int 0), (("maxHR"), PyVal.int 0)])]
      ("avg_heart_rate") = some PyVal.none :=
  (C10_zero_heart_rate_to_none
      [(("averageHR"), PyVal.int 0), (("maxHR"), PyVal.int 0)] _ rfl).1 rfl

/-! ### Claim C3 -/

/-- Counterexample to C3 as stated: a numeric-string `duration` does not
yield `duration_seconds` absent — the string value is passed through
unchanged into the output (only the heart-rate fields collapse
non-numeric values to `None`; `duration` and `calories` keep the raw
value when the conversion guard fails). -/
theorem C3_counterexample :
    normalize_activity
        (PyVal.dict [(("activityId"), PyVal.int 7), (("duration"), PyVal.str ("3600"))]) =
      Except.ok
        [(("activity_id"), PyVal.str ("7")),
         (("activity_name"), PyVal.str ("")),
         (("activity_type"), PyVal.none),
         (("start_time"), PyVal.none),
         (("duration_seconds"), PyVal.str ("3600")),
         (("distance_meters"), PyVal.none),
         (("calories"), PyVal.none),
         (("avg_heart_rate"), PyVal.none),
         (("max_heart_rate"), PyVal.none),
         (("raw_data"),
          PyVal.dict [(("activityId"), PyVal.int 7), (("duration"), PyVal.str ("3600"))])] :=
  rfl

/-- Claim C3 (amended): in `normalize_activity`, `avg_heart_rate` and
`max_heart_rate` are accepted only when the source value is numeric
(truncated to int), and a non-numeric source value (e.g. the numeric
string `'165'`) yields `None`; `duration` and `calories` are truncated to
int when the source value is truthy and numeric, but a non-numeric source
value is passed through into the output unchanged rather than made
absent; the spec's concrete example holds: normalizing
`{'activityId': 12345, 'activityType': {'typeKey': 'RUNNING'},
'duration': 3600.5}` yields `activity_id == '12345'`,
`activity_type == 'running'` and `duration_seconds == 3600`. -/
theorem C3_numeric_field_handling :
    (∀ (kvs nd : PyDict) (v : PyVal), normalize_activity (PyVal.dict kvs) = Except.ok nd →
      lookupKey kvs ("maxHR") = some v →
      (v.isNumeric = false → lookupKey nd ("max_heart_rate") = some PyVal.none) ∧
      (v.truthy = true → v.isNumeric = true →
        lookupKey nd ("max_heart_rate") = some (PyVal.int v.toIntVal))) ∧
    (∀ (kvs nd : PyDict) (v : PyVal), normalize_activity (PyVal.dict kvs) = Except.ok nd →
      lookupKey kvs ("averageHR") = some v →
      (v.isNumeric = false → lookupKey nd ("avg_heart_rate") = some PyVal.none) ∧
      (v.truthy = true → v.isNumeric = true →
        lookupKey nd ("avg_heart_rate") = some (PyVal.int v.toIntVal))) ∧
    (∀ (kvs nd : PyDict) (v : PyVal), normalize_activity (PyVal.dict kvs) = Except.ok nd →
      lookupKey kvs ("duration") = some v →
      (v.truthy = true → v.isNumeric = true →
        lookupKey nd ("duration_seconds") = some (PyVal.int v.toIntVal)) ∧
      (v.isNumeric = false → lookupKey nd ("duration_seconds") = some v)) ∧
    (∀ (kvs nd : PyDict) (v : PyVal), normalize_activity (PyVal.dict kvs) = Except.ok nd →
      lookupKey kvs ("calories") = some v →
      (v.truthy = true → v.isNumeric = true →
        lookupKey nd ("calories") = some (PyVal.int v.toIntVal)) ∧
      (v.isNumeric = false → lookupKey nd ("calories") = some v)) ∧
    (normalize_activity (PyVal.dict specExampleActivity) =
      Except.ok
        [(("activity_id"), PyVal.str ("12345")),
         (("activity_name"), PyVal.str ("")),
         (("activity_type"), PyVal.str ("running")),
         (("start_time"), PyVal.none),
         (("duration_seconds"), PyVal.int 3600),
         (("distance_meters"), PyVal.none),
         (("calories"), PyVal.none),
         (("avg_heart_rate"), PyVal.none),
         (("max_heart_rate"), PyVal.none),
         (("raw_data"), PyVal.dict specExampleActivity)]) := by
  refine ⟨?_, ?_, ?_, ?_, ?_⟩
  · intro kvs nd v h hv
    obtain ⟨stv, atv, dstv, _, _, _, hnd⟩ := normalize_activity_ok_elim kvs nd h
    subst hnd
    constructor
    · intro hnum
      simp [lookupKey, hrField, pyGet, hv, hnum]
    · intro htr hnum
      simp [lookupKey, hrField, pyGet, hv, hnum, htr]
  · intro kvs nd v h hv
    obtain ⟨stv, atv, dstv, _, _, _, hnd⟩ := normalize_activity_ok_elim kvs nd h
    subst hnd
    constructor
    · intro hnum
      simp [lookupKey, hrField, pyGet, hv, hnum]
    · intro htr hnum
      simp [lookupKey, hrField, pyGet, hv, hnum, htr]
  · intro kvs nd v h hv
    obtain ⟨stv, atv, dstv, _, _, _, hnd⟩ := normalize_activity_ok_elim kvs nd h
    subst hnd
    constructor
    · intro htr hnum
      simp [lookupKey, convertDuration, pyGet, hv, hnum, htr]
    · intro hnum
      simp [lookupKey, convertDuration, pyGet, hv, hnum]
  · intro kvs nd v h hv
    obtain ⟨stv, atv, dstv, _, _, _, hnd⟩ := normalize_activity_ok_elim kvs nd h
    subst hnd
    constructor
    · intro htr hnum
      simp [lookupKey, convertCalories, pyGet, hv, hnum, htr]
    · intro hnum
      simp [lookupKey, convertCalories, pyGet, hv, hnum]
  · rfl

/-- Witness for C3 at the spec's own example input
`{'maxHR': '165'}`: the numeric-string heart rate collapses to `None`. -/
theorem C3_numeric_field_handling_witness :
    lookupKey
      [(("activity_id"), PyVal.str ("")),
       (("activity_name"), PyVal.str ("")),
       (("activity_type"), PyVal.none),
       (("start_time"), PyVal.none),
       (("duration_seconds"), PyVal.none),
       (("distance_meters"), PyVal.none),
       (("calories"), PyVal.none),
       (("avg_heart_rate"), PyVal.none),
       (("max_heart_rate"), PyVal.none),
       (("raw_data"), PyVal.dict [(("maxHR"), PyVal.str ("165"))])]
      ("max_heart_rate") = some PyVal.none :=
  (C3_numeric_field_handling.1 [(("maxHR"), PyVal.str ("165"))] _ (PyVal.str ("165"))
      rfl rfl).1 rfl

/-! ### Totality lemmas for the normalizers -/

theorem exceptOk_iff {ε α : Type} (e : Except ε α) :
    exceptOk e = true ↔ ∃ a, e = Except.ok a := by
  cases e <;> simp [exceptOk]

theorem ite_ok_ok {ε α : Type} (c : Prop) [Decidable c] (a b : α) :
    (if c then Except.ok a else Except.ok b : Except ε α) = Except.ok (if c then a else b) := by
  split <;> rfl

theorem parseStartTime_isOk (d : PyDict)
    (h : ∀ v, lookupKey d ("startTimeLocal") = some v → v.truthy = true →
      ∃ s, v = PyVal.str s) :
    exceptOk (parseStartTime d) = true := by
  unfold parseStartTime
  cases hv : lookupKey d ("startTimeLocal") with
  | none => simp [pyGet, hv, PyVal.truthy, exceptOk]
  | some v =>
      by_cases ht : v.truthy = true
      · obtain ⟨s, rfl⟩ := h v hv ht
        cases hp : fromisoformat (s.replace ("Z") ("+00:00")) with
        | none => simp [pyGet, hv, ht, hp, exceptOk]
        | some dt => simp [pyGet, hv, ht, hp, exceptOk]
      · rw [Bool.not_eq_true] at ht
        simp [pyGet, hv, ht, exceptOk]

theorem parseActivityType_isOk (d : PyDict)
    (h : ∀ v, lookupKey d ("activityType") = some v → v.truthy = true →
      ∃ akvs, v = PyVal.dict akvs ∧
        ∀ w, lookupKey akvs ("typeKey") = some w → ∃ s, w = PyVal.str s) :
    exceptOk (parseActivityType d) = true := by
  unfold parseActivityType
  cases hv : lookupKey d ("activityType") with
  | none => simp [exceptOk]
  | some v =>
      by_cases ht : v.truthy = true
      · obtain ⟨akvs, rfl, hk⟩ := h v hv ht
        cases hw : lookupKey akvs ("typeKey") with
        | none => simp [ht, pyGet, hw, exceptOk]
        | some w =>
            obtain ⟨s, rfl⟩ := hk w hw
            simp [ht, pyGet, hw, exceptOk]
      · rw [Bool.not_eq_true] at ht
        simp [ht, exceptOk]

theorem convertDistance_isOk (d : PyDict)
    (h : lookupKey d ("distance") ≠ some (PyVal.bool true)) :
    exceptOk (convertDistance d) = true := by
  unfold convertDistance
  cases hv : lookupKey d ("distance") with
  | none => simp [pyGet, hv, PyVal.truthy, PyVal.isNumeric, exceptOk]
  | some v =>
      cases v with
      | bool b =>
          cases b with
          | false => simp [pyGet, hv, PyVal.truthy, PyVal.isNumeric, exceptOk]
          | true => exact absurd hv h
      | int n =>
          by_cases hz : n = 0 <;>
            simp [pyGet, hv, PyVal.truthy, PyVal.isNumeric, hz, exceptOk]
      | float q =>
          by_cases hz : q = 0 <;>
            simp [pyGet, hv, PyVal.truthy, PyVal.isNumeric, hz, exceptOk]
      | none => simp [pyGet, hv, PyVal.truthy, PyVal.isNumeric, exceptOk]
      | str s => simp [pyGet, hv, PyVal.truthy, PyVal.isNumeric, exceptOk]
      | list xs => simp [pyGet, hv, PyVal.truthy, PyVal.isNumeric, exceptOk]
      | dict kvs => simp [pyGet, hv, PyVal.truthy, PyVal.isNumeric, exceptOk]
      | datetime t => simp [pyGet, hv, PyVal.truthy, PyVal.isNumeric, exceptOk]
      | decimal q => simp [pyGet, hv, PyVal.truthy, PyVal.isNumeric, exceptOk]

theorem normalize_activity_isOk (kvs : PyDict) (h : ActivityWellTyped kvs) :
    ∃ nd, normalize_activity (PyVal.dict kvs) = Except.ok nd := by
  obtain ⟨h1, h2, h3⟩ := h
  obtain ⟨stv, hst⟩ := (exceptOk_iff _).mp (parseStartTime_isOk kvs h1)
  obtain ⟨atv, hat⟩ := (exceptOk_iff _).mp (parseActivityType_isOk kvs h2)
  obtain ⟨dstv, hds⟩ := (exceptOk_iff _).mp (convertDistance_isOk kvs h3)
  apply (exceptOk_iff _).mp
  rw [normalize_activity]
  simp [except_ok_bind, hst, hat, hds, exceptOk]

theorem sleepStageStep_isOk (acc : PyDict) (lkvs : PyDict)
    (hk : ∀ w, lookupKey lkvs ("level") = some w → ∃ s, w = PyVal.str s) :
    exceptOk (sleepStageStep acc (PyVal.dict lkvs)) = true := by
  unfold sleepStageStep
  cases hw : lookupKey lkvs ("level") with
  | none =>
      simp only [pyGet, hw, Option.getD]
      split <;> simp [exceptOk]
  | some w =>
      obtain ⟨s, rfl⟩ := hk w hw
      simp only [pyGet, hw, Option.getD]
      split <;> simp [exceptOk]

theorem sleepStages_foldlM_isOk (xs : List PyVal)
    (h : ∀ lv ∈ xs, ∃ lkvs, lv = PyVal.dict lkvs ∧
      ∀ w, lookupKey lkvs ("level") = some w → ∃ s, w = PyVal.str s) :
    ∀ acc, ∃ st, xs.foldlM sleepStageStep acc = Except.ok st := by
  induction xs with
  | nil => intro acc; exact ⟨acc, rfl⟩
  | cons lv rest ih =>
      intro acc
      obtain ⟨lkvs, rfl, hk⟩ := h lv (List.mem_cons_self lv rest)
      have hrest := fun lv' hm => h lv' (List.mem_cons_of_mem _ hm)
      obtain ⟨acc', hacc'⟩ := (exceptOk_iff _).mp (sleepStageStep_isOk acc lkvs hk)
      obtain ⟨st, hst⟩ := ih hrest acc'
      refine ⟨st, ?_⟩
      rw [List.foldlM_cons, hacc', except_ok_bind, hst]

theorem parseSleepTimestamp_isOk (d : PyDict) (k : String)
    (h : ∀ v, lookupKey d k = some v → ∃ s, v = PyVal.str s) :
    exceptOk (parseSleepTimestamp d k) = true := by
  unfold parseSleepTimestamp
  cases hv : lookupKey d k with
  | none => simp [exceptOk]
  | some v =>
      obtain ⟨s, rfl⟩ := h v hv
      cases hp : fromisoformat (s.replace ("Z") ("+00:00")) with
      | none => simp [hv, hp, exceptOk]
      | some dt => simp [hv, hp, exceptOk]

theorem normalize_sleep_data_isOk (kvs : PyDict) (d : PyDate) (h : SleepWellTyped kvs) :
    ∃ nd, normalize_sleep_data (PyVal.dict kvs) d = Except.ok nd := by
  obtain ⟨h1, h2, h3⟩ := h
  obtain ⟨x1, hx1⟩ := (exceptOk_iff _).mp
    (parseSleepTimestamp_isOk kvs ("sleepStartTimestampLocal") h2)
  obtain ⟨x2, hx2⟩ := (exceptOk_iff _).mp
    (parseSleepTimestamp_isOk kvs ("sleepEndTimestampLocal") h3)
  apply (exceptOk_iff _).mp
  cases hv : lookupKey kvs ("sleepLevels") with
  | none =>
      rw [normalize_sleep_data]
      simp [asMapping, except_ok_bind, parseStagesValue, hv, hx1, hx2, exceptOk]
  | some v =>
      obtain ⟨xs, rfl, hlv⟩ := h1 v hv
      obtain ⟨st, hst⟩ := sleepStages_foldlM_isOk xs hlv []
      rw [normalize_sleep_data]
      simp [asMapping, except_ok_bind, parseStagesValue, hv, normalize_sleep_stages, hst, hx1,
        hx2, exceptOk, Except.map]

/-! ### Claim C2 -/

/-- Counterexample to C2 as stated: a well-formed dict whose
`startTimeLocal` value is the number 1 (truthy, so the code calls
`.replace` on it) makes `normalize_activity` raise an `AttributeError`
rather than return a result — totality over arbitrary value types does
not hold. -/
theorem C2_counterexample :
    normalize_activity (PyVal.dict [(("startTimeLocal"), PyVal.int 1)]) =
      Except.error PyErr.attributeError := rfl

/-- Claim C2 (amended): the heart-rate, body-composition and stress
normalizers return a result without raising for every dict input,
whatever the value types; `normalize_activity` and `normalize_sleep_data`
do so provided the values the code manipulates as strings or iterates
over have those shapes (a truthy `startTimeLocal` is a string, a truthy
`activityType` is a mapping with a string `typeKey`, `distance` is not
`True`; `sleepLevels` is a list of mappings with string `level` values
and the sleep timestamps are strings) — ill-typed values under those
keys propagate the exception; and a non-mapping input (e.g. `None`)
raises for every normalizer. -/
theorem C2_normalizer_totality :
    (∀ (kvs : PyDict) (d : PyDate),
      ∃ nd, normalize_heart_rate_data (PyVal.dict kvs) d = Except.ok nd) ∧
    (∀ (kvs : PyDict) (d : PyDate),
      ∃ nd, normalize_body_composition (PyVal.dict kvs) d = Except.ok nd) ∧
    (∀ (kvs : PyDict) (d : PyDate),
      ∃ nd, normalize_stress_data (PyVal.dict kvs) d = Except.ok nd) ∧
    (∀ kvs : PyDict, ActivityWellTyped kvs →
      ∃ nd, normalize_activity (PyVal.dict kvs) = Except.ok nd) ∧
    (∀ (kvs : PyDict) (d : PyDate), SleepWellTyped kvs →
      ∃ nd, normalize_sleep_data (PyVal.dict kvs) d = Except.ok nd) ∧
    (normalize_activity PyVal.none = Except.error PyErr.attributeError) ∧
    (∀ d, normalize_heart_rate_data PyVal.none d = Except.error PyErr.typeError) ∧
    (∀ d, normalize_sleep_data PyVal.none d = Except.error PyErr.typeError) ∧
    (∀ d, normalize_body_composition PyVal.none d = Except.error PyErr.typeError) ∧
    (∀ d, normalize_stress_data PyVal.none d = Except.error PyErr.typeError) :=
  ⟨fun _ _ => (exceptOk_iff _).mp rfl,
   fun _ _ => (exceptOk_iff _).mp rfl,
   fun _ _ => (exceptOk_iff _).mp rfl,
   fun kvs h => normalize_activity_isOk kvs h,
   fun kvs d h => normalize_sleep_data_isOk kvs d h,
   rfl, fun _ => rfl, fun _ => rfl, fun _ => rfl, fun _ => rfl⟩

/-- Witness for C2: the well-typedness hypotheses discharged at concrete
inputs (an activity dict and a sleep dict with no ill-typed values). -/
theorem C2_normalizer_totality_witness :
    (∃ nd, normalize_activity (PyVal.dict [(("activityId"), PyVal.int 1)]) = Except.ok nd) ∧
    (∃ nd, normalize_sleep_data (PyVal.dict [(("sleepTimeSeconds"), PyVal.int 100)])
      ⟨2024, 1, 15⟩ = Except.ok nd) :=
  ⟨C2_normalizer_totality.2.2.2.1 [(("activityId"), PyVal.int 1)]
      ⟨by intro v hv; simp [lookupKey] at hv,
       by intro v hv; simp [lookupKey] at hv,
       by simp [lookupKey]⟩,
   C2_normalizer_totality.2.2.2.2.1 [(("sleepTimeSeconds"), PyVal.int 100)] ⟨2024, 1, 15⟩
      ⟨by intro v hv; simp [lookupKey] at hv,
       by intro v hv; simp [lookupKey] at hv,
       by intro v hv; simp [lookupKey] at hv⟩⟩

/-! ### Claim C8 -/

/-- Claim C8: `normalize_activities_batch` normalizes each list item
independently — it equals the per-item filter-map in which an item whose
normalization raises contributes nothing (skipped, not aborting the
batch) and a normalized item with an empty (falsy) `activity_id` is
excluded; in particular the spec's batch
`[{'activityId': 1, ...}, {'invalid': 'data'}, {'activityId': '', ...},
{'activityId': 3, ...}]` yields exactly 2 records, in order, and a batch
whose middle item genuinely raises still yields its 2 valid records. -/
theorem C8_batch_independent_normalization :
    (∀ raws : List PyVal,
      normalize_activities_batch raws = raws.filterMap (fun r =>
        match normalize_activity r with
        | Except.ok n =>
            if (pyGet n ("activity_id") (.str "")).truthy then some n else Option.none
        | Except.error _ => Option.none)) ∧
    (normalize_activities_batch batchExample).length = 2 ∧
    (normalize_activities_batch batchExample).map
        (fun n => lookupKey n ("activity_name")) =
      [some (PyVal.str ("Valid Run")), some (PyVal.str ("Another Valid Run"))] ∧
    normalize_activity (PyVal.dict [(("activityId"), PyVal.int 2),
        (("startTimeLocal"), PyVal.int 99)]) = Except.error PyErr.attributeError ∧
    (normalize_activities_batch batchWithRaiser).map
        (fun n => lookupKey n ("activity_id")) =
      [some (PyVal.str ("1")), some (PyVal.str ("3"))] := by
  refine ⟨?_, rfl, rfl, rfl, rfl⟩
  intro raws
  induction raws with
  | nil => rfl
  | cons r rest ih =>
      rw [normalize_activities_batch, List.filterMap_cons]
      cases normalize_activity r with
      | error e => exact ih
      | ok n =>
          by_cases ht : (pyGet n ("activity_id") (.str "")).truthy = true
      
          · simp [ht, ih]
          · rw [Bool.not_eq_true] at ht
            simp [ht, ih]

/-! ### Characterization of a successful `normalize_sleep_data` -/

theorem parseSleepTimestamp_of_absent (d : PyDict) (k : String)
    (hv : lookupKey d k = Option.none) :
    parseSleepTimestamp d k = Except.ok Option.none := by
  rw [parseSleepTimestamp, hv]

theorem parseStagesValue_isSome (kvs : PyDict) (o : Option PyVal)
    (h : parseStagesValue kvs = Except.ok o) :
    o.isSome = (lookupKey kvs ("sleepLevels")).isSome := by
  rw [parseStagesValue] at h
  cases hsl : lookupKey kvs ("sleepLevels") with
  | none =>
      rw [hsl] at h
      simp at h
      simp [h.symm]
  | some v =>
      rw [hsl] at h
      cases v with
      | list xs =>
          cases hfold : normalize_sleep_stages xs with
          | error e => simp [hfold, Except.map] at h
          | ok st =>
              simp [hfold, Except.map] at h
              simp [h.symm]
      | none => simp at h
      | bool b => simp at h
      | int n => simp at h
      | float q => simp at h
      | str s => simp at h
      | dict kvs2 => simp at h
      | datetime t => simp at h
      | decimal q => simp at h

theorem normalize_sleep_data_ok_elim (kvs nd : PyDict) (d : PyDate)
    (h : normalize_sleep_data (PyVal.dict kvs) d = Except.ok nd) :
    ∃ (stagesPart startPart endPart : Option PyVal),
      parseStagesValue kvs = Except.ok stagesPart ∧
      parseSleepTimestamp kvs ("sleepStartTimestampLocal") = Except.ok startPart ∧
      parseSleepTimestamp kvs ("sleepEndTimestampLocal") = Except.ok endPart ∧
      nd = [(("metric_type"), PyVal.str ("sleep")),
            (("recorded_date"), PyVal.datetime (midnightUtc d)),
            (("metric_data"), PyVal.dict
              (copyKey kvs ("restlessness") ("restlessness")
                (copyKey kvs ("sleepScore") ("sleep_score")
                  (optSet
                    (optSet
                      (optSet
                        (copyKey kvs ("sleepEfficiency") ("sleep_efficiency")
                          (copyKey kvs ("sleepTimeSeconds") ("sleep_duration_seconds") []))
                        ("sleep_stages") stagesPart)
                      ("sleep_start") startPart)
                    ("sleep_end") endPart))))] := by
  rw [normalize_sleep_data] at h
  simp only [asMapping, except_ok_bind] at h
  cases hsp : parseStagesValue kvs with
  | error e => simp [hsp, except_error_bind] at h
  | ok o =>
      cases h1 : parseSleepTimestamp kvs ("sleepStartTimestampLocal") with
      | error e => simp [hsp, h1, except_ok_bind, except_error_bind] at h
      | ok x1 =>
          cases h2 : parseSleepTimestamp kvs ("sleepEndTimestampLocal") with
          | error e => simp [hsp, h1, h2, except_ok_bind, except_error_bind] at h
          | ok x2 =>
              refine ⟨o, x1, x2, rfl, rfl, rfl, ?_⟩
              simp [hsp, h1, h2, except_ok_bind] at h
              exact h.symm

/-! ### Claim C9 -/

/-- Counterexample to C9 as stated: for the well-formed input dict
`{'sleepLevels': 5}` the sleep normalizer does not return a record at
all — iterating the non-list `sleepLevels` raises. -/
theorem C9_counterexample :
    normalize_sleep_data (PyVal.dict [(("sleepLevels"), PyVal.int 5)]) ⟨2024, 1, 15⟩ =
      Except.error PyErr.typeError := rfl

/-- Claim C9 (amended): the heart-rate, body-composition and stress
normalizers return, for every input dict and target date, a record whose
`metric_type` names their own kind, whose `recorded_date` is midnight UTC
of the target date, and whose `metric_data` holds exactly the renamed
recognized keys present in the input (an absent recognized key is
omitted, an unrecognized key never appears); the sleep normalizer
satisfies the same contract whenever it returns at all (ill-typed
`sleepLevels` or timestamp values make it raise instead), with
`sleep_stages` present exactly when `sleepLevels` was present and the
parsed timestamps omitted when absent from the input. -/
theorem C9_metric_record_shape :
    (∀ (kvs : PyDict) (d : PyDate),
      ∃ md, normalize_heart_rate_data (PyVal.dict kvs) d =
          Except.ok [(("metric_type"), PyVal.str ("heart_rate")),
                     (("recorded_date"), PyVal.datetime (midnightUtc d)),
                     (("metric_data"), PyVal.dict md)] ∧
        (∀ p ∈ hrKeyTable, lookupKey md p.2 = lookupKey kvs p.1) ∧
        (∀ k, k ∉ hrKeyTable.map Prod.snd → lookupKey md k = Option.none)) ∧
    (∀ (kvs : PyDict) (d : PyDate),
      ∃ md, normalize_body_composition (PyVal.dict kvs) d =
          Except.ok [(("metric_type"), PyVal.str ("body_composition")),
                     (("recorded_date"), PyVal.datetime (midnightUtc d)),
                     (("metric_data"), PyVal.dict md)] ∧
        (∀ p ∈ bodyKeyTable, lookupKey md p.2 = lookupKey kvs p.1) ∧
        (∀ k, k ∉ bodyKeyTable.map Prod.snd → lookupKey md k = Option.none)) ∧
    (∀ (kvs : PyDict) (d : PyDate),
      ∃ md, normalize_stress_data (PyVal.dict kvs) d =
          Except.ok [(("metric_type"), PyVal.str ("stress")),
                     (("recorded_date"), PyVal.datetime (midnightUtc d)),
                     (("metric_data"), PyVal.dict md)] ∧
        (∀ p ∈ stressKeyTable, lookupKey md p.2 = lookupKey kvs p.1) ∧
        (∀ k, k ∉ stressKeyTable.map Prod.snd → lookupKey md k = Option.none)) ∧
    (∀ (kvs nd : PyDict) (d : PyDate),
      normalize_sleep_data (PyVal.dict kvs) d = Except.ok nd →
      ∃ md, nd = [(("metric_type"), PyVal.str ("sleep")),
                  (("recorded_date"), PyVal.datetime (midnightUtc d)),
                  (("metric_data"), PyVal.dict md)] ∧
        (∀ p ∈ sleepPlainKeyTable, lookupKey md p.2 = lookupKey kvs p.1) ∧
        (∀ k, k ∉ sleepOutKeys → lookupKey md k = Option.none) ∧
        (lookupKey md ("sleep_stages")).isSome = (lookupKey kvs ("sleepLevels")).isSome ∧
        (lookupKey kvs ("sleepStartTimestampLocal") = Option.none →
          lookupKey md ("sleep_start") = Option.none) ∧
        (lookupKey kvs ("sleepEndTimestampLocal") = Option.none →
          lookupKey md ("sleep_end") = Option.none)) := by
  refine ⟨?_, ?_, ?_, ?_⟩
  · intro kvs d
    refine ⟨_, rfl, ?_, ?_⟩
    · intro p hp
      fin_cases hp <;> simp [lookupKey_copyKey, lookupKey, Option.or_none]
    · intro k hk
      simp [hrKeyTable] at hk
      obtain ⟨n1, n2, n3, n4, n5, n6, n7⟩ := hk
      simp [lookupKey_copyKey, lookupKey, Ne.symm n1, Ne.symm n2, Ne.symm n3, Ne.symm n4,
        Ne.symm n5, Ne.symm n6, Ne.symm n7]
  · intro kvs d
    refine ⟨_, rfl, ?_, ?_⟩
    · intro p hp
      fin_cases hp <;> simp [lookupKey_copyKey, lookupKey, Option.or_none]
    · intro k hk
      simp [bodyKeyTable] at hk
      obtain ⟨n1, n2, n3, n4, n5, n6⟩ := hk
      simp [lookupKey_copyKey, lookupKey, Ne.symm n1, Ne.symm n2, Ne.symm n3, Ne.symm n4,
        Ne.symm n5, Ne.symm n6]
  · intro kvs d
    refine ⟨_, rfl, ?_, ?_⟩
    · intro p hp
      fin_cases hp <;> simp [lookupKey_copyKey, lookupKey, Option.or_none]
    · intro k hk
      simp [stressKeyTable] at hk
      obtain ⟨n1, n2, n3, n4, n5, n6, n7, n8, n9⟩ := hk
      simp [lookupKey_copyKey, lookupKey, Ne.symm n1, Ne.symm n2, Ne.symm n3, Ne.symm n4,
        Ne.symm n5, Ne.symm n6, Ne.symm n7, Ne.symm n8, Ne.symm n9]
  · intro kvs nd d h
    obtain ⟨sp, x1, x2, hsp, h1, h2, hnd⟩ := normalize_sleep_data_ok_elim kvs nd d h
    subst hnd
    refine ⟨_, rfl, ?_, ?_, ?_, ?_, ?_⟩
    · intro p hp
      fin_cases hp <;>
        simp [lookupKey_copyKey, lookupKey_optSet, lookupKey, Option.or_none]
    · intro k hk
      simp [sleepOutKeys] at hk
      obtain ⟨n1, n2, n3, n4, n5, n6, n7⟩ := hk
      simp [lookupKey_copyKey, lookupKey_optSet, lookupKey, Ne.symm n1, Ne.symm n2,
        Ne.symm n3, Ne.symm n4, Ne.symm n5, Ne.symm n6, Ne.symm n7]
    · have := parseStagesValue_isSome kvs sp hsp
      simpa [lookupKey_copyKey, lookupKey_optSet, lookupKey, Option.or_none] using this
    · intro habs
      have hx1 : x1 = Option.none := by
        rw [parseSleepTimestamp_of_absent kvs _ habs] at h1
        exact (Except.ok.injEq _ _).mp h1.symm
      subst hx1
      simp [lookupKey_copyKey, lookupKey_optSet, lookupKey, Option.or_none]
    · intro habs
      have hx2 : x2 = Option.none := by
        rw [parseSleepTimestamp_of_absent kvs _ habs] at h2
        exact (Except.ok.injEq _ _).mp h2.symm
      subst hx2
      simp [lookupKey_copyKey, lookupKey_optSet, lookupKey, Option.or_none]

/-- Witness for C9: the sleep clause applied at the concrete input
`{'sleepTimeSeconds': 100}` for 2024-01-15, whose normalization
succeeds (discharged by computation). -/
theorem C9_metric_record_shape_witness :
    ∃ md,
      ([(("metric_type"), PyVal.str ("sleep")),
        (("recorded_date"), PyVal.datetime ⟨2024, 1, 15, 0, 0, 0, true⟩),
        (("metric_data"), PyVal.dict [(("sleep_duration_seconds"), PyVal.int 100)])] : PyDict) =
        [(("metric_type"), PyVal.str ("sleep")),
         (("recorded_date"), PyVal.datetime (midnightUtc ⟨2024, 1, 15⟩)),
         (("metric_data"), PyVal.dict md)] ∧
      (∀ p ∈ sleepPlainKeyTable,
        lookupKey md p.2 = lookupKey [(("sleepTimeSeconds"), PyVal.int 100)] p.1) ∧
      (∀ k, k ∉ sleepOutKeys → lookupKey md k = Option.none) ∧
      (lookupKey md ("sleep_stages")).isSome =
        (lookupKey [(("sleepTimeSeconds"), PyVal.int 100)] ("sleepLevels")).isSome ∧
      (lookupKey [(("sleepTimeSeconds"), PyVal.int 100)] ("sleepStartTimestampLocal") =
          Option.none → lookupKey md ("sleep_start") = Option.none) ∧
      (lookupKey [(("sleepTimeSeconds"), PyVal.int 100)] ("sleepEndTimestampLocal") =
          Option.none → lookupKey md ("sleep_end") = Option.none) :=
  C9_metric_record_shape.2.2.2 [(("sleepTimeSeconds"), PyVal.int 100)]
    [(("metric_type"), PyVal.str ("sleep")),
     (("recorded_date"), PyVal.datetime ⟨2024, 1, 15, 0, 0, 0, true⟩),
     (("metric_data"), PyVal.dict [(("sleep_duration_seconds"), PyVal.int 100)])]
    ⟨2024, 1, 15⟩ rfl

/-! ### Claim C1 -/

theorem is_allowed_no_removal (st : Finset ℕ) (now : ℕ) (limit window : ℤ)
    (h : ∀ t ∈ st, (now : ℤ) - window < (t : ℤ)) :
    is_allowed st now limit window = (decide ((st.card : ℤ) < limit), insert now st) := by
  simp only [is_allowed]
  rw [Finset.filter_true_of_mem h]

theorem runCalls_fresh (limit : ℤ) :
    ∀ (ts : List ℕ) (st : Finset ℕ),
      (∀ u ∈ ts, ∀ t ∈ st, (u : ℤ) - 60 < (t : ℤ)) →
      (∀ u ∈ ts, ∀ v ∈ ts, (u : ℤ) - 60 < (v : ℤ)) →
      List.Pairwise (fun a b => a ≠ b) ts →
      (∀ u ∈ ts, u ∉ st) →
      (runCalls st limit 60 ts).1 =
        (List.range ts.length).map
          (fun i : ℕ => decide ((st.card : ℤ) + (i : ℤ) < limit)) := by
  intro ts
  induction ts with
  | nil => intro st _ _ _ _; rfl
  | cons t ts ih =>
      intro st h1 h2 hp hd
      have htmem : t ∈ t :: ts := List.mem_cons_self t ts
      have hstep := is_allowed_no_removal st t limit 60
        (fun x hx => h1 t htmem x hx)
      have htnotin : t ∉ st := hd t htmem
      rw [runCalls]
      simp only [hstep]
      have ihapp := ih (insert t st)
        (fun u hu x hx => by
          rcases Finset.mem_insert.mp hx with hxt | hxs
          · rw [hxt]
            exact h2 u (List.mem_cons_of_mem _ hu) t htmem
          · exact h1 u (List.mem_cons_of_mem _ hu) x hxs)
        (fun u hu v hv =>
          h2 u (List.mem_cons_of_mem _ hu) v (List.mem_cons_of_mem _ hv))
        (List.Pairwise.of_cons hp)
        (fun u hu => by
          rw [Finset.mem_insert]
          push_neg
          refine ⟨fun he => ?_, hd u (List.mem_cons_of_mem _ hu)⟩
          exact (List.rel_of_pairwise_cons hp hu) he.symm)
      simp only [ihapp, Finset.card_insert_of_not_mem htnotin, List.length_cons,
        List.range_succ_eq_map, List.map_cons, List.map_map]
      congr 1
      apply List.map_congr_left
      intro i _
      simp only [Function.comp_apply]
      rw [decide_eq_decide]
      constructor <;> intro h <;> omega

/-- Counterexample to C1 as stated: eleven calls all carrying the same
timestamp (the same integer second) are all within the window, yet the
11th call returns `true` — the sorted-set member is `str(current_time)`,
so same-second calls collapse into a single entry and the count never
reaches the limit. -/
theorem C1_counterexample :
    (runCalls (∅ : Finset ℕ) 10 60 (List.replicate 11 1000)).1.getLast? = some true := by
  decide

/-- Claim C1 (amended): `is_allowed` keeps exactly the entries younger
than `now - window` (scores in `[0, now - window]` are removed, the
boundary inclusive), always inserts an entry for `now`, and returns true
iff the count read after the removal and before the insertion is below
the limit; with window 60 and limit 10, eleven calls within the window
whose timestamps are pairwise distinct see the 11th call refused, and
once every stored entry is at least a full window old the next call is
allowed again.  (Pairwise distinct timestamps are required: same-second
calls collapse into one sorted-set member.) -/
theorem C1_rate_limiter_sliding_window :
    (∀ (st : Finset ℕ) (now : ℕ) (limit window : ℤ),
      ((is_allowed st now limit window).1 = true ↔
        (((st.filter (fun t : ℕ => (now : ℤ) - window < (t : ℤ))).card : ℤ) < limit)) ∧
      (is_allowed st now limit window).2 =
        insert now (st.filter (fun t : ℕ => (now : ℤ) - window < (t : ℤ)))) ∧
    (∀ ts : List ℕ, ts.length = 11 →
      List.Pairwise (fun a b => a ≠ b) ts →
      (∀ u ∈ ts, ∀ v ∈ ts, (u : ℤ) - 60 < (v : ℤ)) →
      (runCalls (∅ : Finset ℕ) 10 60 ts).1.getLast? = some false) ∧
    (∀ (st : Finset ℕ) (now : ℕ) (limit : ℤ), 0 < limit →
      (∀ t ∈ st, (t : ℤ) ≤ (now : ℤ) - 60) →
      (is_allowed st now limit 60).1 = true) := by
  refine ⟨?_, ?_, ?_⟩
  · intro st now limit window
    constructor
    · simp [is_allowed]
    · simp [is_allowed]
  · intro ts hlen hp hspan
    have hrun := runCalls_fresh 10 ts ∅ (by simp) hspan hp (by simp)
    rw [hrun, hlen]
    decide
  · intro st now limit hlim h
    have hfe : st.filter (fun t : ℕ => (now : ℤ) - 60 < (t : ℤ)) = ∅ :=
      Finset.filter_false_of_mem (fun t ht => by
        have := h t ht
        omega)
    simp only [is_allowed, hfe, Finset.card_empty]
    simpa using hlim

/-- Witness for C1: eleven strictly increasing same-window timestamps see
the 11th call refused, and a call at time 60 against a single entry from
time 0 is allowed again. -/
theorem C1_rate_limiter_sliding_window_witness :
    (runCalls (∅ : Finset ℕ) 10 60 [0, 1, 2, 3, 4, 5, 6, 7, 8, 9, 10]).1.getLast? =
      some false ∧
    (is_allowed ({0} : Finset ℕ) 60 1 60).1 = true :=
  ⟨C1_rate_limiter_sliding_window.2.1 [0, 1, 2, 3, 4, 5, 6, 7, 8, 9, 10]
      (by decide) (by decide) (by decide),
   C1_rate_limiter_sliding_window.2.2 {0} 60 1 (by decide) (by decide)⟩
